import Mathlib

/-!
Verification of the abbyEVM virtual-machine core and compiler back-end.

This file gives a shallow embedding, in Lean 4, of the interpreter
(`src/evm/mod.rs`, `src/opcodes/mod.rs`) and of the parts of the code
generator (`src/compiler/codegen.rs`) relevant to the properties below,
together with proofs and refutations of the specification's claims.

Modelling conventions:
* 256-bit words (`U256`) are `Nat`s; wrapping arithmetic applies `% 2^256`
  explicitly where the Rust code wraps.
* Rust `usize` is 64-bit; `U256::as_usize`/`as_u64` panic when the value
  does not fit, which the model represents with the `StepRes.crash`
  outcome (a host panic, distinct from an in-frame error string).
* Mutable state threading (`&mut EvmState`) becomes explicit state
  passing: an operation is `EvmState → StepRes α`, and an `Err` carries
  the state as mutated up to the failure point, exactly as the Rust
  `?` operator leaves the borrowed state.
* `HashMap<U256,U256>` storage is modelled as an association list with
  unique keys; `insert` replaces, `remove` deletes, `get` is `find?`.
* Keccak-256 is an external cryptographic primitive; the interpreter is
  parametrised by an arbitrary hash function `kec : List Nat → Nat`
  (reduced mod 2^256 where the code truncates a 32-byte digest).
* The `while` loop of `EvmExecutor::execute` is modelled with explicit
  fuel (`none` = fuel ran out, which the Rust loop never needs); the
  model additionally returns the number of loop iterations actually
  executed, which is ghost data used only to state step-count claims.
-/

/-- 2^256, the modulus of the 256-bit word type `U256`. -/
def wordMod : Nat := 2 ^ 256

/-- Big-endian value of a byte list: `U256::from_big_endian`. -/
def beNat (l : List Nat) : Nat := l.foldl (fun a b => a * 256 + b) 0

/-- Big-endian encoding of `v` on `w` bytes: `U256::to_big_endian`
(for `w = 32`). -/
def beBytes (w : Nat) (v : Nat) : List Nat :=
  match w with
  | 0 => []
  | w + 1 => beBytes w (v / 256) ++ [v % 256]

/-- A structural log record (`types.rs`, `struct Log`). -/
structure LogRec where
  address : Nat
  topics : List Nat
  data : List Nat
deriving DecidableEq, Repr

/-- The execution frame (`evm/mod.rs`, `struct EvmState`).  The stack is a
list with its head as the top (Rust pushes/pops at the `Vec`'s end).  The
unused `accounts` field is omitted; `origin` is kept for fidelity. -/
structure EvmState where
  stack : List Nat
  memory : List Nat
  storage : List (Nat × Nat)
  logs : List LogRec
  pc : Nat
  gas : Nat
  value : Nat
  caller : Nat
  origin : Nat
  address : Nat
  call_data : List Nat
  return_data : List Nat
  halted : Bool
  reverted : Bool
  error : Option String
deriving DecidableEq, Repr

/-- `EvmState::new(gas, value)`. -/
def EvmState.new (gas value : Nat) : EvmState :=
  { stack := [], memory := [], storage := [], logs := [], pc := 0,
    gas := gas, value := value, caller := 0, origin := 0, address := 0,
    call_data := [], return_data := [], halted := false, reverted := false,
    error := none }

/-- Outcome of one state-mutating operation: success, an in-frame error
(Rust `Err(String)`, with the state as mutated so far), or a host panic. -/
inductive StepRes (α : Type) where
  | ok : α → EvmState → StepRes α
  | err : String → EvmState → StepRes α
  | crash : StepRes α
deriving DecidableEq, Repr

/-- A stateful operation on the execution frame. -/
def EvmM (α : Type) : Type := EvmState → StepRes α

/-- Sequencing of stateful operations (the Rust `?` operator). -/
def bindM {α β : Type} (m : EvmM α) (f : α → EvmM β) : EvmM β :=
  fun s =>
    match m s with
    | .ok a s1 => f a s1
    | .err e s1 => .err e s1
    | .crash => .crash

/-- A pure result. -/
def pureM {α : Type} (a : α) : EvmM α := fun s => .ok a s

/-- An infallible state update. -/
def modifyOk (f : EvmState → EvmState) : EvmM Unit := fun s => .ok () (f s)

/-- Raising an in-frame error. -/
def errM {α : Type} (e : String) : EvmM α := fun s => .err e s

/-- Reading the current frame. -/
def getState : EvmM EvmState := fun s => .ok s s

/-- `U256::as_usize`: panics when the word exceeds the 64-bit host word. -/
def as_usize (v : Nat) : EvmM Nat :=
  fun s => if v < 2 ^ 64 then .ok v s else .crash

/-- `U256::as_u64`: panics when the word exceeds 64 bits. -/
def as_u64 (v : Nat) : EvmM Nat :=
  fun s => if v < 2 ^ 64 then .ok v s else .crash

/-- `EvmState::push_stack` (`MAX_STACK_SIZE = 1024`). -/
def push_stack (v : Nat) : EvmM Unit :=
  fun s =>
    if 1024 ≤ s.stack.length then .err "Stack overflow" s
    else .ok () { s with stack := v :: s.stack }

/-- `EvmState::pop_stack`. -/
def pop_stack : EvmM Nat :=
  fun s =>
    match s.stack with
    | [] => .err "Stack underflow" s
    | v :: rest => .ok v { s with stack := rest }

/-- `EvmState::peek_stack` (index counted from the top). -/
def peek_stack (i : Nat) : EvmM Nat :=
  fun s =>
    if h : i < s.stack.length then .ok (s.stack.get ⟨i, h⟩) s
    else .err "Stack underflow" s

/-- Swap the head of a list with its `n`-th element
(`Vec::swap(len-1, len-1-n)` on the top-at-head representation). -/
def swapNth (l : List Nat) (n : Nat) : List Nat :=
  (l.set 0 (l.getD n 0)).set n (l.getD 0 0)

/-- `EvmState::swap_stack`. -/
def swap_stack (n : Nat) : EvmM Unit :=
  fun s =>
    if s.stack.length ≤ n then .err "Stack underflow" s
    else .ok () { s with stack := swapNth s.stack n }

/-- `EvmState::dup_stack`. -/
def dup_stack (n : Nat) : EvmM Unit :=
  fun s =>
    if n = 0 ∨ 16 < n then .err "Invalid DUP parameter" s
    else if s.stack.length < n then .err "Stack underflow" s
    else bindM (peek_stack (n - 1)) push_stack s

/-- `MAX_MEMORY_SIZE = 16 * 1024 * 1024`. -/
def maxMemorySize : Nat := 16 * 1024 * 1024

/-- `EvmState::memory_resize`: grow (zero-filled) to `size`, failing past
the 16 MiB ceiling. -/
def memory_resize (size : Nat) : EvmM Unit :=
  fun s =>
    if maxMemorySize < size then .err "Memory limit exceeded" s
    else if s.memory.length < size then
      .ok () { s with memory := s.memory ++ List.replicate (size - s.memory.length) 0 }
    else .ok () s

/-- Splice `data` into `mem` at `off` (assumes `mem` already long enough,
which `memory_resize` guarantees at every call site). -/
def writeBytes (mem : List Nat) (off : Nat) (data : List Nat) : List Nat :=
  mem.take off ++ data ++ mem.drop (off + data.length)

/-- `EvmState::memory_store`.  The Rust `offset + data.len()` is a `usize`
addition; its overflow aborts the process (arithmetic-overflow panic in
debug builds, out-of-bounds slice panic in release), modelled as `crash`. -/
def memory_store (offset : Nat) (data : List Nat) : EvmM Unit :=
  fun s =>
    if 2 ^ 64 ≤ offset + data.length then .crash
    else
      bindM (memory_resize (offset + data.length))
        (fun _ => modifyOk (fun s1 => { s1 with memory := writeBytes s1.memory offset data })) s

/-- `EvmState::memory_load` (returns the addressed slice after growing). -/
def memory_load (offset size : Nat) : EvmM (List Nat) :=
  fun s =>
    if 2 ^ 64 ≤ offset + size then .crash
    else
      bindM (memory_resize (offset + size))
        (fun _ => fun s1 => .ok ((s1.memory.drop offset).take size) s1) s

/-- `EvmState::consume_gas`: fails with `Out of gas`, without decrementing,
when the balance is insufficient. -/
def consume_gas (amount : Nat) : EvmM Unit :=
  fun s =>
    if s.gas < amount then .err "Out of gas" s
    else .ok () { s with gas := s.gas - amount }

/-- `EvmState::storage_load`: absent keys read as zero. -/
def storage_load (st : List (Nat × Nat)) (k : Nat) : Nat :=
  match st.find? (fun p => p.1 == k) with
  | some p => p.2
  | none => 0

/-- `EvmState::storage_store`: a zero value removes the key, a non-zero
value replaces any previous binding. -/
def storage_store (st : List (Nat × Nat)) (k v : Nat) : List (Nat × Nat) :=
  if v = 0 then st.filter (fun p => p.1 != k)
  else (k, v) :: st.filter (fun p => p.1 != k)

/-- The opcode enumeration (`opcodes/mod.rs`, `enum OpCode`).  Unknown
bytes decode to `UNKNOWN b`. -/
inductive OpCode where
  | STOP | ADD | MUL | SUB | DIV | SDIV | MOD | SMOD | ADDMOD | MULMOD
  | EXP | SIGNEXTEND
  | LT | GT | SLT | SGT | EQ | ISZERO | AND | OR | XOR | NOT | BYTE
  | SHL | SHR | SAR
  | SHA3
  | ADDRESS | BALANCE | ORIGIN | CALLER | CALLVALUE | CALLDATALOAD
  | CALLDATASIZE | CALLDATACOPY | CODESIZE | CODECOPY | GASPRICE
  | EXTCODESIZE | EXTCODECOPY | RETURNDATASIZE | RETURNDATACOPY
  | EXTCODEHASH
  | BLOCKHASH | COINBASE | TIMESTAMP | NUMBER | DIFFICULTY | GASLIMIT
  | CHAINID | SELFBALANCE | BASEFEE
  | POP | MLOAD | MSTORE | MSTORE8 | SLOAD | SSTORE | JUMP | JUMPI
  | PC | MSIZE | GAS | JUMPDEST
  | PUSH1 | PUSH2 | PUSH3 | PUSH4 | PUSH5 | PUSH6 | PUSH7 | PUSH8
  | PUSH9 | PUSH10 | PUSH11 | PUSH12 | PUSH13 | PUSH14 | PUSH15 | PUSH16
  | PUSH17 | PUSH18 | PUSH19 | PUSH20 | PUSH21 | PUSH22 | PUSH23 | PUSH24
  | PUSH25 | PUSH26 | PUSH27 | PUSH28 | PUSH29 | PUSH30 | PUSH31 | PUSH32
  | DUP1 | DUP2 | DUP3 | DUP4 | DUP5 | DUP6 | DUP7 | DUP8
  | DUP9 | DUP10 | DUP11 | DUP12 | DUP13 | DUP14 | DUP15 | DUP16
  | SWAP1 | SWAP2 | SWAP3 | SWAP4 | SWAP5 | SWAP6 | SWAP7 | SWAP8
  | SWAP9 | SWAP10 | SWAP11 | SWAP12 | SWAP13 | SWAP14 | SWAP15 | SWAP16
  | LOG0 | LOG1 | LOG2 | LOG3 | LOG4
  | CREATE | CALL | CALLCODE | RETURN | DELEGATECALL | CREATE2
  | STATICCALL | REVERT | INVALID | SELFDESTRUCT
  | UNKNOWN (b : Nat)
deriving Repr

/-- `OpCode::from_byte`. -/
def OpCode.from_byte (byte : Nat) : OpCode :=
  match byte with
  | 0x00 => .STOP
  | 0x01 => .ADD
  | 0x02 => .MUL
  | 0x03 => .SUB
  | 0x04 => .DIV
  | 0x05 => .SDIV
  | 0x06 => .MOD
  | 0x07 => .SMOD
  | 0x08 => .ADDMOD
  | 0x09 => .MULMOD
  | 0x0a => .EXP
  | 0x0b => .SIGNEXTEND
  | 0x10 => .LT
  | 0x11 => .GT
  | 0x12 => .SLT
  | 0x13 => .SGT
  | 0x14 => .EQ
  | 0x15 => .ISZERO
  | 0x16 => .AND
  | 0x17 => .OR
  | 0x18 => .XOR
  | 0x19 => .NOT
  | 0x1a => .BYTE
  | 0x1b => .SHL
  | 0x1c => .SHR
  | 0x1d => .SAR
  | 0x20 => .SHA3
  | 0x30 => .ADDRESS
  | 0x31 => .BALANCE
  | 0x32 => .ORIGIN
  | 0x33 => .CALLER
  | 0x34 => .CALLVALUE
  | 0x35 => .CALLDATALOAD
  | 0x36 => .CALLDATASIZE
  | 0x37 => .CALLDATACOPY
  | 0x38 => .CODESIZE
  | 0x39 => .CODECOPY
  | 0x3a => .GASPRICE
  | 0x3b => .EXTCODESIZE
  | 0x3c => .EXTCODECOPY
  | 0x3d => .RETURNDATASIZE
  | 0x3e => .RETURNDATACOPY
  | 0x3f => .EXTCODEHASH
  | 0x40 => .BLOCKHASH
  | 0x41 => .COINBASE
  | 0x42 => .TIMESTAMP
  | 0x43 => .NUMBER
  | 0x44 => .DIFFICULTY
  | 0x45 => .GASLIMIT
  | 0x46 => .CHAINID
  | 0x47 => .SELFBALANCE
  | 0x48 => .BASEFEE
  | 0x50 => .POP
  | 0x51 => .MLOAD
  | 0x52 => .MSTORE
  | 0x53 => .MSTORE8
  | 0x54 => .SLOAD
  | 0x55 => .SSTORE
  | 0x56 => .JUMP
  | 0x57 => .JUMPI
  | 0x58 => .PC
  | 0x59 => .MSIZE
  | 0x5a => .GAS
  | 0x5b => .JUMPDEST
  | 0x60 => .PUSH1
  | 0x61 => .PUSH2
  | 0x62 => .PUSH3
  | 0x63 => .PUSH4
  | 0x64 => .PUSH5
  | 0x65 => .PUSH6
  | 0x66 => .PUSH7
  | 0x67 => .PUSH8
  | 0x68 => .PUSH9
  | 0x69 => .PUSH10
  | 0x6a => .PUSH11
  | 0x6b => .PUSH12
  | 0x6c => .PUSH13
  | 0x6d => .PUSH14
  | 0x6e => .PUSH15
  | 0x6f => .PUSH16
  | 0x70 => .PUSH17
  | 0x71 => .PUSH18
  | 0x72 => .PUSH19
  | 0x73 => .PUSH20
  | 0x74 => .PUSH21
  | 0x75 => .PUSH22
  | 0x76 => .PUSH23
  | 0x77 => .PUSH24
  | 0x78 => .PUSH25
  | 0x79 => .PUSH26
  | 0x7a => .PUSH27
  | 0x7b => .PUSH28
  | 0x7c => .PUSH29
  | 0x7d => .PUSH30
  | 0x7e => .PUSH31
  | 0x7f => .PUSH32
  | 0x80 => .DUP1
  | 0x81 => .DUP2
  | 0x82 => .DUP3
  | 0x83 => .DUP4
  | 0x84 => .DUP5
  | 0x85 => .DUP6
  | 0x86 => .DUP7
  | 0x87 => .DUP8
  | 0x88 => .DUP9
  | 0x89 => .DUP10
  | 0x8a => .DUP11
  | 0x8b => .DUP12
  | 0x8c => .DUP13
  | 0x8d => .DUP14
  | 0x8e => .DUP15
  | 0x8f => .DUP16
  | 0x90 => .SWAP1
  | 0x91 => .SWAP2
  | 0x92 => .SWAP3
  | 0x93 => .SWAP4
  | 0x94 => .SWAP5
  | 0x95 => .SWAP6
  | 0x96 => .SWAP7
  | 0x97 => .SWAP8
  | 0x98 => .SWAP9
  | 0x99 => .SWAP10
  | 0x9a => .SWAP11
  | 0x9b => .SWAP12
  | 0x9c => .SWAP13
  | 0x9d => .SWAP14
  | 0x9e => .SWAP15
  | 0x9f => .SWAP16
  | 0xa0 => .LOG0
  | 0xa1 => .LOG1
  | 0xa2 => .LOG2
  | 0xa3 => .LOG3
  | 0xa4 => .LOG4
  | 0xf0 => .CREATE
  | 0xf1 => .CALL
  | 0xf2 => .CALLCODE
  | 0xf3 => .RETURN
  | 0xf4 => .DELEGATECALL
  | 0xf5 => .CREATE2
  | 0xfa => .STATICCALL
  | 0xfd => .REVERT
  | 0xfe => .INVALID
  | 0xff => .SELFDESTRUCT
  | b => .UNKNOWN b

/-- `OpCode::push_size`: the immediate width of a PUSH opcode. -/
def OpCode.push_size : OpCode → Option Nat
  | .PUSH1 => some 1
  | .PUSH2 => some 2
  | .PUSH3 => some 3
  | .PUSH4 => some 4
  | .PUSH5 => some 5
  | .PUSH6 => some 6
  | .PUSH7 => some 7
  | .PUSH8 => some 8
  | .PUSH9 => some 9
  | .PUSH10 => some 10
  | .PUSH11 => some 11
  | .PUSH12 => some 12
  | .PUSH13 => some 13
  | .PUSH14 => some 14
  | .PUSH15 => some 15
  | .PUSH16 => some 16
  | .PUSH17 => some 17
  | .PUSH18 => some 18
  | .PUSH19 => some 19
  | .PUSH20 => some 20
  | .PUSH21 => some 21
  | .PUSH22 => some 22
  | .PUSH23 => some 23
  | .PUSH24 => some 24
  | .PUSH25 => some 25
  | .PUSH26 => some 26
  | .PUSH27 => some 27
  | .PUSH28 => some 28
  | .PUSH29 => some 29
  | .PUSH30 => some 30
  | .PUSH31 => some 31
  | .PUSH32 => some 32
  | _ => none

/-- `OpCode::gas_cost`: the base gas schedule. -/
def OpCode.gas_cost : OpCode → Nat
  | .STOP => 0
  | .ADD | .SUB | .LT | .GT | .SLT | .SGT
  | .EQ | .ISZERO | .AND | .OR | .XOR | .NOT
  | .BYTE | .SHL | .SHR | .SAR => 3
  | .MUL | .DIV | .SDIV | .MOD | .SMOD => 5
  | .ADDMOD | .MULMOD => 8
  | .SIGNEXTEND => 5
  | .SHA3 => 30
  | .ADDRESS | .ORIGIN | .CALLER | .CALLVALUE
  | .CALLDATASIZE | .CODESIZE | .GASPRICE | .COINBASE
  | .TIMESTAMP | .NUMBER | .DIFFICULTY | .GASLIMIT
  | .CHAINID | .SELFBALANCE | .BASEFEE => 2
  | .POP => 2
  | .MLOAD => 3
  | .MSTORE | .MSTORE8 => 3
  | .SLOAD => 200
  | .SSTORE => 5000
  | .JUMP => 8
  | .JUMPI => 10
  | .PC => 2
  | .MSIZE => 2
  | .GAS => 2
  | .JUMPDEST => 1
  | .PUSH1 | .PUSH2 | .PUSH3 | .PUSH4 | .PUSH5
  | .PUSH6 | .PUSH7 | .PUSH8 | .PUSH9 | .PUSH10
  | .PUSH11 | .PUSH12 | .PUSH13 | .PUSH14 | .PUSH15
  | .PUSH16 | .PUSH17 | .PUSH18 | .PUSH19 | .PUSH20
  | .PUSH21 | .PUSH22 | .PUSH23 | .PUSH24 | .PUSH25
  | .PUSH26 | .PUSH27 | .PUSH28 | .PUSH29 | .PUSH30
  | .PUSH31 | .PUSH32 => 3
  | .DUP1 | .DUP2 | .DUP3 | .DUP4 | .DUP5
  | .DUP6 | .DUP7 | .DUP8 | .DUP9 | .DUP10
  | .DUP11 | .DUP12 | .DUP13 | .DUP14 | .DUP15
  | .DUP16 => 3
  | .SWAP1 | .SWAP2 | .SWAP3 | .SWAP4 | .SWAP5
  | .SWAP6 | .SWAP7 | .SWAP8 | .SWAP9 | .SWAP10
  | .SWAP11 | .SWAP12 | .SWAP13 | .SWAP14 | .SWAP15
  | .SWAP16 => 3
  | .RETURN => 0
  | .REVERT => 0
  | _ => 1

/-- The Rust `Debug` rendering of an opcode, used by the
`Unimplemented opcode` error message. -/
def OpCode.debug_str : OpCode → String
  | .STOP => "STOP"
  | .ADD => "ADD"
  | .MUL => "MUL"
  | .SUB => "SUB"
  | .DIV => "DIV"
  | .SDIV => "SDIV"
  | .MOD => "MOD"
  | .SMOD => "SMOD"
  | .ADDMOD => "ADDMOD"
  | .MULMOD => "MULMOD"
  | .EXP => "EXP"
  | .SIGNEXTEND => "SIGNEXTEND"
  | .LT => "LT"
  | .GT => "GT"
  | .SLT => "SLT"
  | .SGT => "SGT"
  | .EQ => "EQ"
  | .ISZERO => "ISZERO"
  | .AND => "AND"
  | .OR => "OR"
  | .XOR => "XOR"
  | .NOT => "NOT"
  | .BYTE => "BYTE"
  | .SHL => "SHL"
  | .SHR => "SHR"
  | .SAR => "SAR"
  | .SHA3 => "SHA3"
  | .ADDRESS => "ADDRESS"
  | .BALANCE => "BALANCE"
  | .ORIGIN => "ORIGIN"
  | .CALLER => "CALLER"
  | .CALLVALUE => "CALLVALUE"
  | .CALLDATALOAD => "CALLDATALOAD"
  | .CALLDATASIZE => "CALLDATASIZE"
  | .CALLDATACOPY => "CALLDATACOPY"
  | .CODESIZE => "CODESIZE"
  | .CODECOPY => "CODECOPY"
  | .GASPRICE => "GASPRICE"
  | .EXTCODESIZE => "EXTCODESIZE"
  | .EXTCODECOPY => "EXTCODECOPY"
  | .RETURNDATASIZE => "RETURNDATASIZE"
  | .RETURNDATACOPY => "RETURNDATACOPY"
  | .EXTCODEHASH => "EXTCODEHASH"
  | .BLOCKHASH => "BLOCKHASH"
  | .COINBASE => "COINBASE"
  | .TIMESTAMP => "TIMESTAMP"
  | .NUMBER => "NUMBER"
  | .DIFFICULTY => "DIFFICULTY"
  | .GASLIMIT => "GASLIMIT"
  | .CHAINID => "CHAINID"
  | .SELFBALANCE => "SELFBALANCE"
  | .BASEFEE => "BASEFEE"
  | .POP => "POP"
  | .MLOAD => "MLOAD"
  | .MSTORE => "MSTORE"
  | .MSTORE8 => "MSTORE8"
  | .SLOAD => "SLOAD"
  | .SSTORE => "SSTORE"
  | .JUMP => "JUMP"
  | .JUMPI => "JUMPI"
  | .PC => "PC"
  | .MSIZE => "MSIZE"
  | .GAS => "GAS"
  | .JUMPDEST => "JUMPDEST"
  | .PUSH1 => "PUSH1"
  | .PUSH2 => "PUSH2"
  | .PUSH3 => "PUSH3"
  | .PUSH4 => "PUSH4"
  | .PUSH5 => "PUSH5"
  | .PUSH6 => "PUSH6"
  | .PUSH7 => "PUSH7"
  | .PUSH8 => "PUSH8"
  | .PUSH9 => "PUSH9"
  | .PUSH10 => "PUSH10"
  | .PUSH11 => "PUSH11"
  | .PUSH12 => "PUSH12"
  | .PUSH13 => "PUSH13"
  | .PUSH14 => "PUSH14"
  | .PUSH15 => "PUSH15"
  | .PUSH16 => "PUSH16"
  | .PUSH17 => "PUSH17"
  | .PUSH18 => "PUSH18"
  | .PUSH19 => "PUSH19"
  | .PUSH20 => "PUSH20"
  | .PUSH21 => "PUSH21"
  | .PUSH22 => "PUSH22"
  | .PUSH23 => "PUSH23"
  | .PUSH24 => "PUSH24"
  | .PUSH25 => "PUSH25"
  | .PUSH26 => "PUSH26"
  | .PUSH27 => "PUSH27"
  | .PUSH28 => "PUSH28"
  | .PUSH29 => "PUSH29"
  | .PUSH30 => "PUSH30"
  | .PUSH31 => "PUSH31"
  | .PUSH32 => "PUSH32"
  | .DUP1 => "DUP1"
  | .DUP2 => "DUP2"
  | .DUP3 => "DUP3"
  | .DUP4 => "DUP4"
  | .DUP5 => "DUP5"
  | .DUP6 => "DUP6"
  | .DUP7 => "DUP7"
  | .DUP8 => "DUP8"
  | .DUP9 => "DUP9"
  | .DUP10 => "DUP10"
  | .DUP11 => "DUP11"
  | .DUP12 => "DUP12"
  | .DUP13 => "DUP13"
  | .DUP14 => "DUP14"
  | .DUP15 => "DUP15"
  | .DUP16 => "DUP16"
  | .SWAP1 => "SWAP1"
  | .SWAP2 => "SWAP2"
  | .SWAP3 => "SWAP3"
  | .SWAP4 => "SWAP4"
  | .SWAP5 => "SWAP5"
  | .SWAP6 => "SWAP6"
  | .SWAP7 => "SWAP7"
  | .SWAP8 => "SWAP8"
  | .SWAP9 => "SWAP9"
  | .SWAP10 => "SWAP10"
  | .SWAP11 => "SWAP11"
  | .SWAP12 => "SWAP12"
  | .SWAP13 => "SWAP13"
  | .SWAP14 => "SWAP14"
  | .SWAP15 => "SWAP15"
  | .SWAP16 => "SWAP16"
  | .LOG0 => "LOG0"
  | .LOG1 => "LOG1"
  | .LOG2 => "LOG2"
  | .LOG3 => "LOG3"
  | .LOG4 => "LOG4"
  | .CREATE => "CREATE"
  | .CALL => "CALL"
  | .CALLCODE => "CALLCODE"
  | .RETURN => "RETURN"
  | .DELEGATECALL => "DELEGATECALL"
  | .CREATE2 => "CREATE2"
  | .STATICCALL => "STATICCALL"
  | .REVERT => "REVERT"
  | .INVALID => "INVALID"
  | .SELFDESTRUCT => "SELFDESTRUCT"
  | .UNKNOWN b => "UNKNOWN(" ++ Nat.repr b ++ ")"

/-- `matches!(opcode, OpCode::JUMP | OpCode::JUMPI)`. -/
def OpCode.isJumpOp : OpCode → Bool
  | .JUMP => true
  | .JUMPI => true
  | _ => false

/-- The semantics of one opcode after its gas charge
(`opcodes/mod.rs::execute_opcode`, body of the `match`), parametrised by
the Keccak-256 function.  PUSH opcodes are routed through `push_size`
first, exactly as the Rust guard arm `push_op if push_op.push_size()`
does (no other arm matches a PUSH opcode, so testing it first is
equivalent). -/
def exec_core (kec : List Nat → Nat) (op : OpCode) (code : List Nat) : EvmM Unit :=
  match op with
  | .STOP => modifyOk (fun s => { s with halted := true })
  | .ADD =>
      bindM pop_stack fun a => bindM pop_stack fun b =>
        push_stack ((a + b) % wordMod)
  | .MUL =>
      bindM pop_stack fun a => bindM pop_stack fun b =>
        push_stack ((a * b) % wordMod)
  | .SUB =>
      bindM pop_stack fun a => bindM pop_stack fun b =>
        push_stack ((a + (wordMod - b % wordMod)) % wordMod)
  | .DIV =>
      bindM pop_stack fun a => bindM pop_stack fun b =>
        push_stack (if b = 0 then 0 else a / b)
  | .MOD =>
      bindM pop_stack fun b => bindM pop_stack fun a =>
        push_stack (if b = 0 then 0 else a % b)
  | .EXP =>
      bindM pop_stack fun a => bindM pop_stack fun b =>
        push_stack ((a ^ b) % wordMod)
  | .LT =>
      bindM pop_stack fun a => bindM pop_stack fun b =>
        push_stack (if a < b then 1 else 0)
  | .GT =>
      bindM pop_stack fun a => bindM pop_stack fun b =>
        push_stack (if b < a then 1 else 0)
  | .EQ =>
      bindM pop_stack fun a => bindM pop_stack fun b =>
        push_stack (if a = b then 1 else 0)
  | .ISZERO =>
      bindM pop_stack fun a => push_stack (if a = 0 then 1 else 0)
  | .AND =>
      bindM pop_stack fun a => bindM pop_stack fun b =>
        push_stack (Nat.land a b)
  | .OR =>
      bindM pop_stack fun a => bindM pop_stack fun b =>
        push_stack (Nat.lor a b)
  | .XOR =>
      bindM pop_stack fun a => bindM pop_stack fun b =>
        push_stack (Nat.xor a b)
  | .NOT =>
      bindM pop_stack fun a => push_stack (wordMod - 1 - a % wordMod)
  | .SHA3 =>
      bindM pop_stack fun ow => bindM (as_usize ow) fun offset =>
      bindM pop_stack fun sw => bindM (as_usize sw) fun size =>
      bindM (memory_load offset size) fun data =>
        push_stack (kec data % wordMod)
  | .ADDRESS =>
      bindM getState fun s => push_stack s.address
  | .CALLER =>
      bindM getState fun s => push_stack s.caller
  | .CALLVALUE =>
      bindM getState fun s => push_stack s.value
  | .CALLDATASIZE =>
      bindM getState fun s => push_stack s.call_data.length
  | .CODESIZE => push_stack code.length
  | .POP => bindM pop_stack fun _ => pureM ()
  | .MLOAD =>
      bindM pop_stack fun ow => bindM (as_usize ow) fun offset =>
      bindM (memory_load offset 32) fun data =>
        push_stack (beNat (data.take 32 ++ List.replicate (32 - data.length) 0))
  | .MSTORE =>
      bindM pop_stack fun ow => bindM (as_usize ow) fun offset =>
      bindM pop_stack fun value =>
        memory_store offset (beBytes 32 value)
  | .MSTORE8 =>
      bindM pop_stack fun ow => bindM (as_usize ow) fun offset =>
      bindM pop_stack fun value =>
        memory_store offset [value % 256]
  | .SLOAD =>
      bindM pop_stack fun key =>
      bindM getState fun s => push_stack (storage_load s.storage key)
  | .SSTORE =>
      bindM pop_stack fun key => bindM pop_stack fun value =>
        modifyOk (fun s => { s with storage := storage_store s.storage key value })
  | .JUMP =>
      bindM pop_stack fun dw => bindM (as_usize dw) fun dest =>
        if dest < code.length ∧ code.getD dest 0 = 0x5b then
          modifyOk (fun s => { s with pc := dest })
        else errM "Invalid jump destination"
  | .JUMPI =>
      bindM pop_stack fun dw => bindM (as_usize dw) fun dest =>
      bindM pop_stack fun condition =>
        if condition ≠ 0 then
          if dest < code.length ∧ code.getD dest 0 = 0x5b then
            modifyOk (fun s => { s with pc := dest })
          else errM "Invalid jump destination"
        else modifyOk (fun s => { s with pc := s.pc + 1 })
  | .PC =>
      bindM getState fun s => push_stack s.pc
  | .MSIZE =>
      bindM getState fun s => push_stack s.memory.length
  | .GAS =>
      bindM getState fun s => push_stack s.gas
  | .JUMPDEST => pureM ()
  | .DUP1 => dup_stack 1
  | .DUP2 => dup_stack 2
  | .DUP3 => dup_stack 3
  | .DUP4 => dup_stack 4
  | .DUP5 => dup_stack 5
  | .DUP6 => dup_stack 6
  | .DUP7 => dup_stack 7
  | .DUP8 => dup_stack 8
  | .DUP9 => dup_stack 9
  | .DUP10 => dup_stack 10
  | .DUP11 => dup_stack 11
  | .DUP12 => dup_stack 12
  | .DUP13 => dup_stack 13
  | .DUP14 => dup_stack 14
  | .DUP15 => dup_stack 15
  | .DUP16 => dup_stack 16
  | .SWAP1 => swap_stack 1
  | .SWAP2 => swap_stack 2
  | .SWAP3 => swap_stack 3
  | .SWAP4 => swap_stack 4
  | .SWAP5 => swap_stack 5
  | .SWAP6 => swap_stack 6
  | .SWAP7 => swap_stack 7
  | .SWAP8 => swap_stack 8
  | .SWAP9 => swap_stack 9
  | .SWAP10 => swap_stack 10
  | .SWAP11 => swap_stack 11
  | .SWAP12 => swap_stack 12
  | .SWAP13 => swap_stack 13
  | .SWAP14 => swap_stack 14
  | .SWAP15 => swap_stack 15
  | .SWAP16 => swap_stack 16
  | .RETURN =>
      bindM pop_stack fun ow => bindM (as_usize ow) fun offset =>
      bindM pop_stack fun sw => bindM (as_usize sw) fun size =>
      bindM (memory_load offset size) fun data =>
        modifyOk (fun s => { s with return_data := data, halted := true })
  | .REVERT =>
      bindM pop_stack fun ow => bindM (as_usize ow) fun offset =>
      bindM pop_stack fun sw => bindM (as_usize sw) fun size =>
      bindM (memory_load offset size) fun data =>
        modifyOk (fun s => { s with return_data := data, reverted := true })
  | .LOG0 =>
      bindM pop_stack fun ow => bindM (as_usize ow) fun offset =>
      bindM pop_stack fun sw => bindM (as_usize sw) fun size =>
      bindM (memory_load offset size) fun _ =>
        pureM ()
  | .LOG1 =>
      bindM pop_stack fun ow => bindM (as_usize ow) fun offset =>
      bindM pop_stack fun sw => bindM (as_usize sw) fun size =>
      bindM pop_stack fun topic1 =>
      bindM (memory_load offset size) fun _ =>
      bindM (as_u64 topic1) fun _ =>
        pureM ()
  | .LOG2 =>
      bindM pop_stack fun ow => bindM (as_usize ow) fun offset =>
      bindM pop_stack fun sw => bindM (as_usize sw) fun size =>
      bindM pop_stack fun _ => bindM pop_stack fun _ =>
      bindM (memory_load offset size) fun _ =>
        pureM ()
  | .LOG3 =>
      bindM pop_stack fun ow => bindM (as_usize ow) fun offset =>
      bindM pop_stack fun sw => bindM (as_usize sw) fun size =>
      bindM pop_stack fun _ => bindM pop_stack fun _ =>
      bindM pop_stack fun _ =>
      bindM (memory_load offset size) fun _ =>
        pureM ()
  | .LOG4 =>
      bindM pop_stack fun ow => bindM (as_usize ow) fun offset =>
      bindM pop_stack fun sw => bindM (as_usize sw) fun size =>
      bindM pop_stack fun _ => bindM pop_stack fun _ =>
      bindM pop_stack fun _ => bindM pop_stack fun _ =>
      bindM (memory_load offset size) fun _ =>
        pureM ()
  | other => errM ("Unimplemented opcode: " ++ other.debug_str)

/-- The PUSH1..PUSH32 arm of `execute_opcode`: reads `size` immediate
bytes following the opcode, pushes their big-endian value (left
zero-padded to 32 bytes) and advances `pc` past the immediate. -/
def push_case (size : Nat) (code : List Nat) : EvmM Unit :=
  fun s =>
    if code.length ≤ s.pc + size then
      .err "Push instruction exceeds bytecode length" s
    else
      bindM
        (push_stack (beNat (List.replicate (32 - size) 0 ++ (code.drop (s.pc + 1)).take size)))
        (fun _ => modifyOk (fun s1 => { s1 with pc := s1.pc + size })) s

/-- `opcodes/mod.rs::execute_opcode`: charge the base gas cost, then run
the opcode's semantics. -/
def execute_opcode (kec : List Nat → Nat) (op : OpCode) (code : List Nat) : EvmM Unit :=
  bindM (consume_gas op.gas_cost) fun _ =>
    match op.push_size with
    | some size => push_case size code
    | none => exec_core kec op code

/-- Post-execution status (`types.rs`, `enum ExecutionStatus`). -/
inductive ExecutionStatus where
  | Success
  | Revert (msg : String)
  | OutOfGas
  | Error (msg : String)
deriving DecidableEq, Repr

/-- The result surfaced to the caller (`types.rs`,
`struct ExecutionResult`; the always-empty `state_changes` map is
omitted). -/
structure ExecutionResult where
  status : ExecutionStatus
  gas_used : Nat
  gas_remaining : Nat
  return_data : List Nat
  logs : List LogRec
deriving DecidableEq, Repr

/-- Rust `str::contains`: `needle` occurs as a substring of `hay`. -/
def strContains (hay needle : String) : Bool :=
  (List.range (hay.data.length + 1)).any
    (fun i => needle.data.isPrefixOf (hay.data.drop i))

/-- The status classification at the end of `EvmExecutor::execute`. -/
def status_of (error : Option String) (reverted : Bool) : ExecutionStatus :=
  match error with
  | some e => if strContains e "Out of gas" then .OutOfGas else .Error e
  | none => if reverted then .Revert "Execution reverted" else .Success

/-- Building the `ExecutionResult` from the final frame. -/
def finish (initial_gas : Nat) (s : EvmState) : ExecutionResult :=
  { status := status_of s.error s.reverted,
    gas_used := initial_gas - s.gas,
    gas_remaining := s.gas,
    return_data := s.return_data,
    logs := s.logs }

/-- One iteration of the interpreter loop body: decode the byte at `pc`,
execute it, and advance `pc` by one unless the opcode was JUMP/JUMPI or
the frame halted. -/
def exec_step (kec : List Nat → Nat) (code : List Nat) (s : EvmState) : StepRes Unit :=
  let op := OpCode.from_byte (code.getD s.pc 0)
  match execute_opcode kec op code s with
  | .ok _ s1 =>
      .ok () (if op.isJumpOp = false ∧ s1.halted = false then { s1 with pc := s1.pc + 1 } else s1)
  | .err e s1 => .err e s1
  | .crash => .crash

/-- Outcome of a whole run: a result plus the number of loop iterations
actually executed (ghost data used to state step-count properties), or a
host panic. -/
inductive RunResult where
  | result : ExecutionResult → Nat → RunResult
  | crashed : RunResult
deriving DecidableEq, Repr

/-- The `while` loop of `EvmExecutor::execute`.  `step_count` is the
source's step counter — incremented only in the `if verbose` block —
while `steps` is the ghost iteration count; `fuel` bounds the recursion
(`none` = fuel exhausted). -/
def exec_loop (kec : List Nat → Nat) (verbose : Bool) (code : List Nat)
    (initial_gas : Nat) : EvmState → Nat → Nat → Nat → Option RunResult
  | _, _, _, 0 => none
  | s, step_count, steps, fuel + 1 =>
    if s.pc < code.length ∧ s.halted = false ∧ s.reverted = false ∧ s.error = none then
      let sc := if verbose then step_count + 1 else step_count
      match exec_step kec code s with
      | .crash => some .crashed
      | .err e s1 =>
          some (.result (finish initial_gas { s1 with error := some e }) (steps + 1))
      | .ok _ s2 =>
          if 10000 < sc then
            some (.result
              (finish initial_gas
                { s2 with error := some "Execution limit exceeded (too many steps)" })
              (steps + 1))
          else exec_loop kec verbose code initial_gas s2 sc (steps + 1) fuel
    else some (.result (finish initial_gas s) steps)

/-- `EvmExecutor::execute(bytecode, value, verbose)` with gas limit
`gas_limit`. -/
def execute (kec : List Nat → Nat) (code : List Nat) (gas_limit value : Nat)
    (verbose : Bool) (fuel : Nat) : Option RunResult :=
  exec_loop kec verbose code gas_limit (EvmState.new gas_limit value) 0 0 fuel

/-- A concrete stand-in hash function used for closed test runs that never
execute SHA3. -/
def kec0 : List Nat → Nat := fun _ => 0

/-- `CodeGenerator`'s `OpCode` → byte table (`codegen.rs`, trait
`OpCodeExt::to_byte`; unlisted opcodes emit `0xfe`). -/
def OpCode.to_byte : OpCode → Nat
  | .STOP => 0x00
  | .ADD => 0x01
  | .MUL => 0x02
  | .SUB => 0x03
  | .DIV => 0x04
  | .MOD => 0x06
  | .EXP => 0x0a
  | .LT => 0x10
  | .GT => 0x11
  | .EQ => 0x14
  | .ISZERO => 0x15
  | .AND => 0x16
  | .OR => 0x17
  | .XOR => 0x18
  | .NOT => 0x19
  | .SHA3 => 0x20
  | .POP => 0x50
  | .MLOAD => 0x51
  | .MSTORE => 0x52
  | .MSTORE8 => 0x53
  | .SLOAD => 0x54
  | .SSTORE => 0x55
  | .JUMP => 0x56
  | .JUMPI => 0x57
  | .JUMPDEST => 0x5b
  | .PUSH1 => 0x60
  | .PUSH2 => 0x61
  | .PUSH3 => 0x62
  | .PUSH4 => 0x63
  | .PUSH32 => 0x7f
  | .DUP1 => 0x80
  | .DUP2 => 0x81
  | .DUP3 => 0x82
  | .SWAP1 => 0x90
  | .SWAP2 => 0x91
  | .LOG0 => 0xa0
  | .LOG1 => 0xa1
  | .RETURN => 0xf3
  | _ => 0xfe

/-- `CodeGenerator::u256_to_minimal_bytes`: the 32-byte big-endian
encoding with leading zero bytes stripped (keeping at least the last
byte). -/
def u256_to_minimal_bytes (v : Nat) : List Nat :=
  let bytes := beBytes 32 v
  let start := (bytes.findIdx? (fun b => b != 0)).getD 31
  bytes.drop start

/-- `CodeGenerator::emit_push_u256`: append the narrowest PUSH for `v`
(PUSH1–PUSH4 for 1–4 minimal bytes, PUSH32 otherwise) followed by the
minimal bytes, to the bytecode buffer `bc`. -/
def emit_push_u256 (bc : List Nat) (v : Nat) : List Nat :=
  let bytes := u256_to_minimal_bytes v
  let push_opcode : OpCode :=
    match bytes.length with
    | 1 => .PUSH1
    | 2 => .PUSH2
    | 3 => .PUSH3
    | 4 => .PUSH4
    | _ => .PUSH32
  let bc1 := bc ++ [push_opcode.to_byte]
  if bytes.length ≤ 32 then bc1 ++ bytes
  else bc1 ++ (List.replicate (32 - min bytes.length 32) 0 ++ bytes.take 32)

/-- `CodeGenerator::visit_return_stmt` applied to `return n;` where the
value is the number literal `n` (whose `visit_expression` is a single
`emit_push_u256`): emit the value, push size 32 and offset 0, MSTORE,
push size 32 and offset 0 again, RETURN. -/
def visit_return_stmt_lit (bc : List Nat) (n : Nat) : List Nat :=
  let bc1 := emit_push_u256 bc n
  let bc2 := emit_push_u256 bc1 32
  let bc3 := emit_push_u256 bc2 0
  let bc4 := bc3 ++ [OpCode.MSTORE.to_byte]
  let bc5 := emit_push_u256 bc4 32
  let bc6 := emit_push_u256 bc5 0
  bc6 ++ [OpCode.RETURN.to_byte]

/-- `CodeGenerator::compile` on the one-statement program `return n;`:
emit the statement, then append STOP unless the last byte is already
`0x00` (there are no pending jumps to fix up). -/
def compile_return_program (n : Nat) : List Nat :=
  let bc := visit_return_stmt_lit [] n
  match bc.getLast? with
  | some 0 => bc
  | _ => bc ++ [0x00]

/-- The storage map holds no zero value (the invariant maintained by
`storage_store`). -/
def no_zero (st : List (Nat × Nat)) : Prop := ∀ p ∈ st, p.2 ≠ 0

/-- The per-operation state relation: gas never increases, the no-zero
storage invariant is preserved, and the logs list is unchanged (no
operation of the interpreter ever appends to it). -/
def StateRel (s s2 : EvmState) : Prop :=
  s2.gas ≤ s.gas ∧ (no_zero s.storage → no_zero s2.storage) ∧ s2.logs = s.logs

/-- An operation is sound when every successful or failing outcome is
related to the input state by `StateRel`. -/
def Sound {α : Type} (m : EvmM α) : Prop :=
  ∀ s : EvmState,
    (∀ a s2, m s = .ok a s2 → StateRel s s2) ∧
    (∀ e s2, m s = .err e s2 → StateRel s s2)

/-- Test fixture: `JUMPDEST; PUSH1 0; JUMP` — the smallest infinite loop. -/
def loop_code : List Nat := [0x5b, 0x60, 0x00, 0x56]

/-- The loop-head state of a `loop_code` run with `g` gas left. -/
def stA (g : Nat) : EvmState := EvmState.new g 0

/-- The state after the JUMPDEST of a `loop_code` cycle. -/
def stB (g : Nat) : EvmState := { EvmState.new g 0 with pc := 1 }

/-- The state after the PUSH1 of a `loop_code` cycle. -/
def stC (g : Nat) : EvmState := { EvmState.new g 0 with pc := 3, stack := [0] }

theorem beNat_replicate_zero_append (k : Nat) (l : List Nat) :
    beNat (List.replicate k 0 ++ l) = beNat l := by
  induction k with
  | zero => rfl
  | succ k ih =>
    simpa [beNat, List.replicate_succ] using ih

theorem gas_cost_JUMP : OpCode.gas_cost .JUMP = 8 := rfl

theorem push_size_JUMP : OpCode.push_size .JUMP = none := rfl

theorem exec_core_JUMP (kec : List Nat → Nat) (code : List Nat) :
    exec_core kec .JUMP code =
      bindM pop_stack fun dw => bindM (as_usize dw) fun dest =>
        if dest < code.length ∧ code.getD dest 0 = 0x5b then
          modifyOk (fun s => { s with pc := dest })
        else errM "Invalid jump destination" := rfl

theorem execute_opcode_eq (kec : List Nat → Nat) (op : OpCode) (code : List Nat) :
    execute_opcode kec op code =
      bindM (consume_gas op.gas_cost) fun _ =>
        match op.push_size with
        | some size => push_case size code
        | none => exec_core kec op code := rfl

/-- C3 (amended): executing JUMP with popped destination `d` (for `d`
within the host word, since larger values crash in `as_usize`) succeeds,
setting PC to `d`, iff `d` is in bounds and the byte at offset `d` is the
JUMPDEST encoding `0x5b` — regardless of whether that byte lies inside the
immediate region of a preceding PUSH; otherwise it raises the
"Invalid jump destination" error. -/
theorem jump_semantics (kec : List Nat → Nat) (code : List Nat) (d : Nat)
    (rest : List Nat) (s : EvmState)
    (hs : s.stack = d :: rest) (hg : 8 ≤ s.gas) (hd : d < 2 ^ 64) :
    (d < code.length ∧ code.getD d 0 = 0x5b →
      execute_opcode kec .JUMP code s =
        .ok () { s with stack := rest, gas := s.gas - 8, pc := d }) ∧
    (¬ (d < code.length ∧ code.getD d 0 = 0x5b) →
      execute_opcode kec .JUMP code s =
        .err "Invalid jump destination" { s with stack := rest, gas := s.gas - 8 }) := by
  have hng : ¬ s.gas < 8 := by omega
  have hd2 : d < 18446744073709551616 := by
    have h64 : (2 : Nat) ^ 64 = 18446744073709551616 := by norm_num
    omega
  rw [execute_opcode_eq, push_size_JUMP, gas_cost_JUMP]
  constructor
  · intro hcond
    obtain ⟨h1, h2⟩ := hcond
    have h3 : code[d] = 91 := by
      rw [List.getD_eq_getElem?_getD, List.getElem?_eq_getElem h1] at h2
      simpa using h2
    simp [exec_core_JUMP, bindM, consume_gas, pop_stack, as_usize, modifyOk, errM,
      hs, hng, hd2, h1, h3]
  · intro hcond
    simp only [not_and] at hcond
    by_cases h1 : d < code.length
    · have h3 : ¬ code[d] = 91 := by
        intro hb
        exact hcond h1 (by rw [List.getD_eq_getElem?_getD, List.getElem?_eq_getElem h1]; simpa using hb)
      simp [exec_core_JUMP, bindM, consume_gas, pop_stack, as_usize, modifyOk, errM,
        hs, hng, hd2, h1, h3]
    · simp [exec_core_JUMP, bindM, consume_gas, pop_stack, as_usize, modifyOk, errM,
        hs, hng, hd2, h1]

theorem execute_opcode_plain (kec : List Nat → Nat) (op : OpCode) (code : List Nat)
    (c : Nat) (h1 : op.push_size = none) (h2 : op.gas_cost = c) :
    execute_opcode kec op code =
      bindM (consume_gas c) fun _ => exec_core kec op code := by
  rw [execute_opcode_eq, h1, h2]

theorem exec_core_DIV (kec : List Nat → Nat) (code : List Nat) :
    exec_core kec .DIV code =
      bindM pop_stack fun a => bindM pop_stack fun b =>
        push_stack (if b = 0 then 0 else a / b) := rfl

theorem exec_core_MOD (kec : List Nat → Nat) (code : List Nat) :
    exec_core kec .MOD code =
      bindM pop_stack fun b => bindM pop_stack fun a =>
        push_stack (if b = 0 then 0 else a % b) := rfl

theorem div_semantics (kec : List Nat → Nat) (code : List Nat) (a b : Nat)
    (rest : List Nat) (s : EvmState)
    (hs : s.stack = a :: b :: rest) (hg : 5 ≤ s.gas) (hrest : rest.length < 1024) :
    execute_opcode kec .DIV code s =
      .ok ()
        { s with
            stack := (if b = 0 then 0 else a / b) :: rest,
            gas := s.gas - 5 } := by
  have hng : ¬ s.gas < 5 := by omega
  have hp : ¬ 1024 ≤ rest.length := by omega
  rw [execute_opcode_plain kec .DIV code 5 rfl rfl]
  simp [exec_core_DIV, bindM, consume_gas, pop_stack, push_stack, hs, hng, hp]

theorem mod_semantics (kec : List Nat → Nat) (code : List Nat) (a b : Nat)
    (rest : List Nat) (s : EvmState)
    (hs : s.stack = b :: a :: rest) (hg : 5 ≤ s.gas) (hrest : rest.length < 1024) :
    execute_opcode kec .MOD code s =
      .ok ()
        { s with
            stack := (if b = 0 then 0 else a % b) :: rest,
            gas := s.gas - 5 } := by
  have hng : ¬ s.gas < 5 := by omega
  have hp : ¬ 1024 ≤ rest.length := by omega
  rw [execute_opcode_plain kec .MOD code 5 rfl rfl]
  simp [exec_core_MOD, bindM, consume_gas, pop_stack, push_stack, hs, hng, hp]

theorem exec_core_SSTORE (kec : List Nat → Nat) (code : List Nat) :
    exec_core kec .SSTORE code =
      bindM pop_stack fun key => bindM pop_stack fun value =>
        modifyOk (fun s => { s with storage := storage_store s.storage key value }) := rfl

theorem sstore_semantics (kec : List Nat → Nat) (code : List Nat) (k v : Nat)
    (rest : List Nat) (s : EvmState)
    (hs : s.stack = k :: v :: rest) (hg : 5000 ≤ s.gas) :
    execute_opcode kec .SSTORE code s =
      .ok ()
        { s with
            stack := rest,
            gas := s.gas - 5000,
            storage := storage_store s.storage k v } := by
  have hng : ¬ s.gas < 5000 := by omega
  rw [execute_opcode_plain kec .SSTORE code 5000 rfl rfl]
  simp [exec_core_SSTORE, bindM, consume_gas, pop_stack, modifyOk, hs, hng]

theorem push_table : ∀ n : Nat, n < 33 → 1 ≤ n →
    (OpCode.from_byte (95 + n)).push_size = some n ∧
    (OpCode.from_byte (95 + n)).gas_cost = 3 ∧
    (OpCode.from_byte (95 + n)).isJumpOp = false := by decide

/-- C8: for a PUSH*n* instruction at offset `p` whose `n` immediate bytes
lie fully within the bytecode, an interpreter step leaves PC at
`p + 1 + n` and pushes the big-endian value of the immediate bytes
(left zero-padding to 32 bytes does not change the value). -/
theorem push_step (kec : List Nat → Nat) (code : List Nat) (p n : Nat)
    (s : EvmState)
    (h1 : 1 ≤ n) (h2 : n ≤ 32)
    (hb : code.getD p 0 = 95 + n) (hlen : p + 1 + n ≤ code.length)
    (hpc : s.pc = p) (hg : 3 ≤ s.gas) (hstack : s.stack.length < 1024)
    (hh : s.halted = false) :
    exec_step kec code s =
      .ok ()
        { s with
            stack := beNat ((code.drop (p + 1)).take n) :: s.stack,
            gas := s.gas - 3,
            pc := p + 1 + n } := by
  obtain ⟨hps, hgc, hj⟩ := push_table n (by omega) h1
  have hng : ¬ s.gas < 3 := by omega
  have hnl : ¬ code.length ≤ p + n := by omega
  have hnp : ¬ 1024 ≤ s.stack.length := by omega
  have harr : p + n + 1 = p + 1 + n := by omega
  simp only [exec_step, hpc, hb, execute_opcode_eq, hps, hgc]
  simp [push_case, bindM, consume_gas, push_stack, modifyOk, hpc, hng, hnl, hnp, hj, hh,
    beNat_replicate_zero_append, harr]

theorem StateRel.refl (s : EvmState) : StateRel s s := ⟨le_refl _, id, rfl⟩

theorem StateRel.trans {s1 s2 s3 : EvmState} (h1 : StateRel s1 s2)
    (h2 : StateRel s2 s3) : StateRel s1 s3 :=
  ⟨le_trans h2.1 h1.1, fun h => h2.2.1 (h1.2.1 h), h2.2.2.trans h1.2.2⟩

theorem sound_bindM {α β : Type} {m : EvmM α} {f : α → EvmM β}
    (hm : Sound m) (hf : ∀ a, Sound (f a)) : Sound (bindM m f) := by
  intro s
  constructor
  · intro b s2 h
    unfold bindM at h
    cases hms : m s with
    | ok a s1 =>
      rw [hms] at h
      exact ((hm s).1 a s1 hms).trans (((hf a) s1).1 b s2 h)
    | err e s1 => rw [hms] at h; exact absurd h (by simp)
    | crash => rw [hms] at h; exact absurd h (by simp)
  · intro e s2 h
    unfold bindM at h
    cases hms : m s with
    | ok a s1 =>
      rw [hms] at h
      exact ((hm s).1 a s1 hms).trans (((hf a) s1).2 e s2 h)
    | err e1 s1 =>
      rw [hms] at h
      cases h
      exact (hm s).2 _ _ hms
    | crash => rw [hms] at h; exact absurd h (by simp)

theorem sound_pureM {α : Type} (a : α) : Sound (pureM a) := by
  intro s
  constructor
  · intro b s2 h
    cases h
    exact StateRel.refl s
  · intro e s2 h
    exact absurd h (by simp [pureM])

theorem sound_errM {α : Type} (e : String) : Sound (errM (α := α) e) := by
  intro s
  constructor
  · intro b s2 h
    exact absurd h (by simp [errM])
  · intro e1 s2 h
    cases h
    exact StateRel.refl s

theorem sound_getState : Sound getState := by
  intro s
  constructor
  · intro b s2 h
    cases h
    exact StateRel.refl s
  · intro e s2 h
    exact absurd h (by simp [getState])

theorem sound_modifyOk (f : EvmState → EvmState)
    (hf : ∀ s, (f s).gas = s.gas ∧ (f s).storage = s.storage ∧ (f s).logs = s.logs) :
    Sound (modifyOk f) := by
  intro s
  constructor
  · intro b s2 h
    cases h
    exact ⟨le_of_eq (hf s).1, by rw [(hf s).2.1]; exact id, (hf s).2.2⟩
  · intro e s2 h
    exact absurd h (by simp [modifyOk])

theorem no_zero_storage_store {st : List (Nat × Nat)} (h : no_zero st)
    (k v : Nat) : no_zero (storage_store st k v) := by
  unfold storage_store
  split
  · intro p hp
    exact h p (List.mem_of_mem_filter hp)
  · intro p hp
    rcases List.mem_cons.mp hp with hp1 | hp2
    · subst hp1
      simpa using by assumption
    · exact h p (List.mem_of_mem_filter hp2)

theorem sound_consume_gas (amount : Nat) : Sound (consume_gas amount) := by
  intro s
  unfold consume_gas
  constructor
  · intro a s2 h
    split at h
    · exact absurd h (by simp)
    · cases h
      exact ⟨Nat.sub_le _ _, id, rfl⟩
  · intro e s2 h
    split at h
    · cases h
      exact StateRel.refl s
    · exact absurd h (by simp)

theorem sound_push_stack (v : Nat) : Sound (push_stack v) := by
  intro s
  unfold push_stack
  constructor
  · intro a s2 h
    split at h
    · exact absurd h (by simp)
    · cases h
      exact ⟨le_refl _, id, rfl⟩
  · intro e s2 h
    split at h
    · cases h
      exact StateRel.refl s
    · exact absurd h (by simp)

theorem sound_pop_stack : Sound pop_stack := by
  intro s
  unfold pop_stack
  constructor
  · intro a s2 h
    split at h
    · exact absurd h (by simp)
    · cases h
      exact ⟨le_refl _, id, rfl⟩
  · intro e s2 h
    split at h
    · cases h
      exact StateRel.refl s
    · exact absurd h (by simp)

theorem sound_peek_stack (i : Nat) : Sound (peek_stack i) := by
  intro s
  unfold peek_stack
  constructor
  · intro a s2 h
    split at h
    · cases h
      exact StateRel.refl s
    · exact absurd h (by simp)
  · intro e s2 h
    split at h
    · exact absurd h (by simp)
    · cases h
      exact StateRel.refl s

theorem sound_swap_stack (n : Nat) : Sound (swap_stack n) := by
  intro s
  unfold swap_stack
  constructor
  · intro a s2 h
    split at h
    · exact absurd h (by simp)
    · cases h
      exact ⟨le_refl _, id, rfl⟩
  · intro e s2 h
    split at h
    · cases h
      exact StateRel.refl s
    · exact absurd h (by simp)

theorem sound_dup_stack (n : Nat) : Sound (dup_stack n) := by
  intro s
  unfold dup_stack
  constructor
  · intro a s2 h
    split at h
    · exact absurd h (by simp)
    · split at h
      · exact absurd h (by simp)
      · exact ((sound_bindM (sound_peek_stack (n - 1)) sound_push_stack) s).1 a s2 h
  · intro e s2 h
    split at h
    · cases h
      exact StateRel.refl s
    · split at h
      · cases h
        exact StateRel.refl s
      · exact ((sound_bindM (sound_peek_stack (n - 1)) sound_push_stack) s).2 e s2 h

theorem sound_as_usize (v : Nat) : Sound (as_usize v) := by
  intro s
  unfold as_usize
  constructor
  · intro a s2 h
    split at h
    · cases h
      exact StateRel.refl s
    · exact absurd h (by simp)
  · intro e s2 h
    split at h
    · exact absurd h (by simp)
    · exact absurd h (by simp)

theorem sound_as_u64 (v : Nat) : Sound (as_u64 v) := by
  intro s
  unfold as_u64
  constructor
  · intro a s2 h
    split at h
    · cases h
      exact StateRel.refl s
    · exact absurd h (by simp)
  · intro e s2 h
    split at h
    · exact absurd h (by simp)
    · exact absurd h (by simp)

theorem sound_memory_resize (size : Nat) : Sound (memory_resize size) := by
  intro s
  unfold memory_resize
  constructor
  · intro a s2 h
    split at h
    · exact absurd h (by simp)
    · split at h
      · cases h
        exact ⟨le_refl _, id, rfl⟩
      · cases h
        exact StateRel.refl s
  · intro e s2 h
    split at h
    · cases h
      exact StateRel.refl s
    · split at h
      · exact absurd h (by simp)
      · exact absurd h (by simp)

theorem sound_memory_store (offset : Nat) (data : List Nat) :
    Sound (memory_store offset data) := by
  intro s
  unfold memory_store
  constructor
  · intro a s2 h
    split at h
    · exact absurd h (by simp)
    · exact ((sound_bindM (sound_memory_resize _)
        (fun _ => sound_modifyOk
          (fun s1 => { s1 with memory := writeBytes s1.memory offset data })
          (fun s1 => ⟨rfl, rfl, rfl⟩))) s).1 a s2 h
  · intro e s2 h
    split at h
    · exact absurd h (by simp)
    · exact ((sound_bindM (sound_memory_resize _)
        (fun _ => sound_modifyOk
          (fun s1 => { s1 with memory := writeBytes s1.memory offset data })
          (fun s1 => ⟨rfl, rfl, rfl⟩))) s).2 e s2 h

theorem sound_memory_load (offset size : Nat) : Sound (memory_load offset size) := by
  intro s
  unfold memory_load
  constructor
  · intro a s2 h
    split at h
    · exact absurd h (by simp)
    · refine ((sound_bindM (sound_memory_resize _) (fun _ => ?_)) s).1 a s2 h
      intro s1
      constructor
      · intro b s3 hb
        cases hb
        exact StateRel.refl s1
      · intro e s3 hb
        exact absurd hb (by simp)
  · intro e s2 h
    split at h
    · exact absurd h (by simp)
    · refine ((sound_bindM (sound_memory_resize _) (fun _ => ?_)) s).2 e s2 h
      intro s1
      constructor
      · intro b s3 hb
        cases hb
        exact StateRel.refl s1
      · intro e1 s3 hb
        exact absurd hb (by simp)

theorem sound_modifyOk_storage (k v : Nat) :
    Sound (modifyOk (fun s => { s with storage := storage_store s.storage k v })) := by
  intro s
  constructor
  · intro a s2 h
    cases h
    exact ⟨le_refl _, fun hz => no_zero_storage_store hz k v, rfl⟩
  · intro e s2 h
    exact absurd h (by simp [modifyOk])

theorem sound_ite {α : Type} {c : Prop} [Decidable c] {m1 m2 : EvmM α}
    (h1 : Sound m1) (h2 : Sound m2) : Sound (if c then m1 else m2) := by
  by_cases hc : c
  · simpa [hc] using h1
  · simpa [hc] using h2

theorem sound_exec_core (kec : List Nat → Nat) (op : OpCode) (code : List Nat) :
    Sound (exec_core kec op code) := by
  cases op
  case STOP => exact sound_modifyOk _ (fun s => ⟨rfl, rfl, rfl⟩)
  case ADD => refine sound_bindM sound_pop_stack fun a => ?_; refine sound_bindM sound_pop_stack fun b => ?_; exact sound_push_stack _
  case MUL => refine sound_bindM sound_pop_stack fun a => ?_; refine sound_bindM sound_pop_stack fun b => ?_; exact sound_push_stack _
  case SUB => refine sound_bindM sound_pop_stack fun a => ?_; refine sound_bindM sound_pop_stack fun b => ?_; exact sound_push_stack _
  case DIV => refine sound_bindM sound_pop_stack fun a => ?_; refine sound_bindM sound_pop_stack fun b => ?_; exact sound_push_stack _
  case SDIV => exact sound_errM _
  case MOD => refine sound_bindM sound_pop_stack fun a => ?_; refine sound_bindM sound_pop_stack fun b => ?_; exact sound_push_stack _
  case SMOD => exact sound_errM _
  case ADDMOD => exact sound_errM _
  case MULMOD => exact sound_errM _
  case EXP => refine sound_bindM sound_pop_stack fun a => ?_; refine sound_bindM sound_pop_stack fun b => ?_; exact sound_push_stack _
  case SIGNEXTEND => exact sound_errM _
  case LT => refine sound_bindM sound_pop_stack fun a => ?_; refine sound_bindM sound_pop_stack fun b => ?_; exact sound_push_stack _
  case GT => refine sound_bindM sound_pop_stack fun a => ?_; refine sound_bindM sound_pop_stack fun b => ?_; exact sound_push_stack _
  case SLT => exact sound_errM _
  case SGT => exact sound_errM _
  case EQ => refine sound_bindM sound_pop_stack fun a => ?_; refine sound_bindM sound_pop_stack fun b => ?_; exact sound_push_stack _
  case ISZERO => refine sound_bindM sound_pop_stack fun a => ?_; exact sound_push_stack _
  case AND => refine sound_bindM sound_pop_stack fun a => ?_; refine sound_bindM sound_pop_stack fun b => ?_; exact sound_push_stack _
  case OR => refine sound_bindM sound_pop_stack fun a => ?_; refine sound_bindM sound_pop_stack fun b => ?_; exact sound_push_stack _
  case XOR => refine sound_bindM sound_pop_stack fun a => ?_; refine sound_bindM sound_pop_stack fun b => ?_; exact sound_push_stack _
  case NOT => refine sound_bindM sound_pop_stack fun a => ?_; exact sound_push_stack _
  case BYTE => exact sound_errM _
  case SHL => exact sound_errM _
  case SHR => exact sound_errM _
  case SAR => exact sound_errM _
  case SHA3 => refine sound_bindM sound_pop_stack fun ow => ?_; refine sound_bindM (sound_as_usize _) fun o => ?_; refine sound_bindM sound_pop_stack fun sw => ?_; refine sound_bindM (sound_as_usize _) fun sz => ?_; refine sound_bindM (sound_memory_load _ _) fun d => ?_; exact sound_push_stack _
  case ADDRESS =>
    exact (sound_bindM sound_getState (fun s1 => sound_push_stack s1.address) :
      Sound (bindM getState fun s => push_stack s.address))
  case BALANCE => exact sound_errM _
  case ORIGIN => exact sound_errM _
  case CALLER =>
    exact (sound_bindM sound_getState (fun s1 => sound_push_stack s1.caller) :
      Sound (bindM getState fun s => push_stack s.caller))
  case CALLVALUE =>
    exact (sound_bindM sound_getState (fun s1 => sound_push_stack s1.value) :
      Sound (bindM getState fun s => push_stack s.value))
  case CALLDATALOAD => exact sound_errM _
  case CALLDATASIZE =>
    exact (sound_bindM sound_getState (fun s1 => sound_push_stack s1.call_data.length) :
      Sound (bindM getState fun s => push_stack s.call_data.length))
  case CALLDATACOPY => exact sound_errM _
  case CODESIZE => exact sound_push_stack _
  case CODECOPY => exact sound_errM _
  case GASPRICE => exact sound_errM _
  case EXTCODESIZE => exact sound_errM _
  case EXTCODECOPY => exact sound_errM _
  case RETURNDATASIZE => exact sound_errM _
  case RETURNDATACOPY => exact sound_errM _
  case EXTCODEHASH => exact sound_errM _
  case BLOCKHASH => exact sound_errM _
  case COINBASE => exact sound_errM _
  case TIMESTAMP => exact sound_errM _
  case NUMBER => exact sound_errM _
  case DIFFICULTY => exact sound_errM _
  case GASLIMIT => exact sound_errM _
  case CHAINID => exact sound_errM _
  case SELFBALANCE => exact sound_errM _
  case BASEFEE => exact sound_errM _
  case POP => refine sound_bindM sound_pop_stack fun a => ?_; exact sound_pureM _
  case MLOAD => refine sound_bindM sound_pop_stack fun ow => ?_; refine sound_bindM (sound_as_usize _) fun o => ?_; refine sound_bindM (sound_memory_load _ _) fun d => ?_; exact sound_push_stack _
  case MSTORE => refine sound_bindM sound_pop_stack fun ow => ?_; refine sound_bindM (sound_as_usize _) fun o => ?_; refine sound_bindM sound_pop_stack fun v => ?_; exact sound_memory_store _ _
  case MSTORE8 => refine sound_bindM sound_pop_stack fun ow => ?_; refine sound_bindM (sound_as_usize _) fun o => ?_; refine sound_bindM sound_pop_stack fun v => ?_; exact sound_memory_store _ _
  case SLOAD =>
    exact (sound_bindM sound_pop_stack
      (fun k => sound_bindM sound_getState (fun s1 => sound_push_stack (storage_load s1.storage k))) :
      Sound (bindM pop_stack fun key => bindM getState fun s => push_stack (storage_load s.storage key)))
  case SSTORE => refine sound_bindM sound_pop_stack fun k => ?_; refine sound_bindM sound_pop_stack fun v => ?_; exact sound_modifyOk_storage _ _
  case JUMP => refine sound_bindM sound_pop_stack fun dw => ?_; refine sound_bindM (sound_as_usize _) fun dest => ?_; exact sound_ite (sound_modifyOk _ (fun s => ⟨rfl, rfl, rfl⟩)) (sound_errM _)
  case JUMPI => refine sound_bindM sound_pop_stack fun dw => ?_; refine sound_bindM (sound_as_usize _) fun dest => ?_; refine sound_bindM sound_pop_stack fun c => ?_; exact sound_ite (sound_ite (sound_modifyOk _ (fun s => ⟨rfl, rfl, rfl⟩)) (sound_errM _)) (sound_modifyOk _ (fun s => ⟨rfl, rfl, rfl⟩))
  case PC =>
    exact (sound_bindM sound_getState (fun s1 => sound_push_stack s1.pc) :
      Sound (bindM getState fun s => push_stack s.pc))
  case MSIZE =>
    exact (sound_bindM sound_getState (fun s1 => sound_push_stack s1.memory.length) :
      Sound (bindM getState fun s => push_stack s.memory.length))
  case GAS =>
    exact (sound_bindM sound_getState (fun s1 => sound_push_stack s1.gas) :
      Sound (bindM getState fun s => push_stack s.gas))
  case JUMPDEST => exact sound_pureM _
  case PUSH1 => exact sound_errM _
  case PUSH2 => exact sound_errM _
  case PUSH3 => exact sound_errM _
  case PUSH4 => exact sound_errM _
  case PUSH5 => exact sound_errM _
  case PUSH6 => exact sound_errM _
  case PUSH7 => exact sound_errM _
  case PUSH8 => exact sound_errM _
  case PUSH9 => exact sound_errM _
  case PUSH10 => exact sound_errM _
  case PUSH11 => exact sound_errM _
  case PUSH12 => exact sound_errM _
  case PUSH13 => exact sound_errM _
  case PUSH14 => exact sound_errM _
  case PUSH15 => exact sound_errM _
  case PUSH16 => exact sound_errM _
  case PUSH17 => exact sound_errM _
  case PUSH18 => exact sound_errM _
  case PUSH19 => exact sound_errM _
  case PUSH20 => exact sound_errM _
  case PUSH21 => exact sound_errM _
  case PUSH22 => exact sound_errM _
  case PUSH23 => exact sound_errM _
  case PUSH24 => exact sound_errM _
  case PUSH25 => exact sound_errM _
  case PUSH26 => exact sound_errM _
  case PUSH27 => exact sound_errM _
  case PUSH28 => exact sound_errM _
  case PUSH29 => exact sound_errM _
  case PUSH30 => exact sound_errM _
  case PUSH31 => exact sound_errM _
  case PUSH32 => exact sound_errM _
  case DUP1 => exact sound_dup_stack _
  case DUP2 => exact sound_dup_stack _
  case DUP3 => exact sound_dup_stack _
  case DUP4 => exact sound_dup_stack _
  case DUP5 => exact sound_dup_stack _
  case DUP6 => exact sound_dup_stack _
  case DUP7 => exact sound_dup_stack _
  case DUP8 => exact sound_dup_stack _
  case DUP9 => exact sound_dup_stack _
  case DUP10 => exact sound_dup_stack _
  case DUP11 => exact sound_dup_stack _
  case DUP12 => exact sound_dup_stack _
  case DUP13 => exact sound_dup_stack _
  case DUP14 => exact sound_dup_stack _
  case DUP15 => exact sound_dup_stack _
  case DUP16 => exact sound_dup_stack _
  case SWAP1 => exact sound_swap_stack _
  case SWAP2 => exact sound_swap_stack _
  case SWAP3 => exact sound_swap_stack _
  case SWAP4 => exact sound_swap_stack _
  case SWAP5 => exact sound_swap_stack _
  case SWAP6 => exact sound_swap_stack _
  case SWAP7 => exact sound_swap_stack _
  case SWAP8 => exact sound_swap_stack _
  case SWAP9 => exact sound_swap_stack _
  case SWAP10 => exact sound_swap_stack _
  case SWAP11 => exact sound_swap_stack _
  case SWAP12 => exact sound_swap_stack _
  case SWAP13 => exact sound_swap_stack _
  case SWAP14 => exact sound_swap_stack _
  case SWAP15 => exact sound_swap_stack _
  case SWAP16 => exact sound_swap_stack _
  case LOG0 => refine sound_bindM sound_pop_stack fun ow => ?_; refine sound_bindM (sound_as_usize _) fun o => ?_; refine sound_bindM sound_pop_stack fun sw => ?_; refine sound_bindM (sound_as_usize _) fun sz => ?_; refine sound_bindM (sound_memory_load _ _) fun d => ?_; exact sound_pureM _
  case LOG1 => refine sound_bindM sound_pop_stack fun ow => ?_; refine sound_bindM (sound_as_usize _) fun o => ?_; refine sound_bindM sound_pop_stack fun sw => ?_; refine sound_bindM (sound_as_usize _) fun sz => ?_; refine sound_bindM sound_pop_stack fun t0 => ?_; refine sound_bindM (sound_memory_load _ _) fun d => ?_; refine sound_bindM (sound_as_u64 _) fun u => ?_; exact sound_pureM _
  case LOG2 => refine sound_bindM sound_pop_stack fun ow => ?_; refine sound_bindM (sound_as_usize _) fun o => ?_; refine sound_bindM sound_pop_stack fun sw => ?_; refine sound_bindM (sound_as_usize _) fun sz => ?_; refine sound_bindM sound_pop_stack fun t0 => ?_; refine sound_bindM sound_pop_stack fun t1 => ?_; refine sound_bindM (sound_memory_load _ _) fun d => ?_; exact sound_pureM _
  case LOG3 => refine sound_bindM sound_pop_stack fun ow => ?_; refine sound_bindM (sound_as_usize _) fun o => ?_; refine sound_bindM sound_pop_stack fun sw => ?_; refine sound_bindM (sound_as_usize _) fun sz => ?_; refine sound_bindM sound_pop_stack fun t0 => ?_; refine sound_bindM sound_pop_stack fun t1 => ?_; refine sound_bindM sound_pop_stack fun t2 => ?_; refine sound_bindM (sound_memory_load _ _) fun d => ?_; exact sound_pureM _
  case LOG4 => refine sound_bindM sound_pop_stack fun ow => ?_; refine sound_bindM (sound_as_usize _) fun o => ?_; refine sound_bindM sound_pop_stack fun sw => ?_; refine sound_bindM (sound_as_usize _) fun sz => ?_; refine sound_bindM sound_pop_stack fun t0 => ?_; refine sound_bindM sound_pop_stack fun t1 => ?_; refine sound_bindM sound_pop_stack fun t2 => ?_; refine sound_bindM sound_pop_stack fun t3 => ?_; refine sound_bindM (sound_memory_load _ _) fun d => ?_; exact sound_pureM _
  case CREATE => exact sound_errM _
  case CALL => exact sound_errM _
  case CALLCODE => exact sound_errM _
  case RETURN => refine sound_bindM sound_pop_stack fun ow => ?_; refine sound_bindM (sound_as_usize _) fun o => ?_; refine sound_bindM sound_pop_stack fun sw => ?_; refine sound_bindM (sound_as_usize _) fun sz => ?_; refine sound_bindM (sound_memory_load _ _) fun d => ?_; exact sound_modifyOk _ (fun s => ⟨rfl, rfl, rfl⟩)
  case DELEGATECALL => exact sound_errM _
  case CREATE2 => exact sound_errM _
  case STATICCALL => exact sound_errM _
  case REVERT => refine sound_bindM sound_pop_stack fun ow => ?_; refine sound_bindM (sound_as_usize _) fun o => ?_; refine sound_bindM sound_pop_stack fun sw => ?_; refine sound_bindM (sound_as_usize _) fun sz => ?_; refine sound_bindM (sound_memory_load _ _) fun d => ?_; exact sound_modifyOk _ (fun s => ⟨rfl, rfl, rfl⟩)
  case INVALID => exact sound_errM _
  case SELFDESTRUCT => exact sound_errM _
  case UNKNOWN b => exact sound_errM _

theorem sound_push_case (size : Nat) (code : List Nat) : Sound (push_case size code) := by
  intro s
  unfold push_case
  constructor
  · intro a s2 h
    split at h
    · exact absurd h (by simp)
    · exact ((sound_bindM (sound_push_stack _)
        (fun _ => sound_modifyOk (fun s1 => { s1 with pc := s1.pc + size })
          (fun s1 => ⟨rfl, rfl, rfl⟩))) s).1 a s2 h
  · intro e s2 h
    split at h
    · cases h
      exact StateRel.refl s
    · exact ((sound_bindM (sound_push_stack _)
        (fun _ => sound_modifyOk (fun s1 => { s1 with pc := s1.pc + size })
          (fun s1 => ⟨rfl, rfl, rfl⟩))) s).2 e s2 h

theorem sound_execute_opcode (kec : List Nat → Nat) (op : OpCode) (code : List Nat) :
    Sound (execute_opcode kec op code) := by
  rw [execute_opcode_eq]
  refine sound_bindM (sound_consume_gas _) fun _ => ?_
  rcases hps : op.push_size with _ | size
  · simpa [hps] using sound_exec_core kec op code
  · simpa [hps] using sound_push_case size code

theorem exec_step_rel (kec : List Nat → Nat) (code : List Nat) (s : EvmState) :
    (∀ a s2, exec_step kec code s = .ok a s2 → StateRel s s2) ∧
    (∀ e s2, exec_step kec code s = .err e s2 → StateRel s s2) := by
  simp only [exec_step]
  cases hx : execute_opcode kec (OpCode.from_byte (code.getD s.pc 0)) code s with
  | ok a s1 =>
    constructor
    · intro a2 s2 h
      simp only at h
      cases h
      have h1 := (sound_execute_opcode kec _ code s).1 a s1 hx
      split
      · exact ⟨h1.1, h1.2.1, h1.2.2⟩
      · exact h1
    · intro e s2 h
      simp only at h
      exact absurd h (by simp)
  | err e1 s1 =>
    constructor
    · intro a2 s2 h
      simp only at h
      exact absurd h (by simp)
    · intro e s2 h
      simp only at h
      cases h
      exact (sound_execute_opcode kec _ code s).2 e1 s1 hx
  | crash =>
    constructor
    · intro a2 s2 h
      simp only at h
      exact absurd h (by simp)
    · intro e s2 h
      simp only at h
      exact absurd h (by simp)

theorem exec_loop_gas (kec : List Nat → Nat) (vb : Bool) (code : List Nat)
    (G : Nat) :
    ∀ fuel (s : EvmState) (sc steps : Nat) (r : ExecutionResult) (m : Nat),
      s.gas ≤ G →
      exec_loop kec vb code G s sc steps fuel = some (.result r m) →
      r.gas_used ≤ G ∧ r.gas_used + r.gas_remaining = G := by
  intro fuel
  induction fuel with
  | zero =>
    intro s sc steps r m hg h
    simp [exec_loop] at h
  | succ fuel ih =>
    intro s sc steps r m hg h
    simp only [exec_loop] at h
    split at h
    · split at h
      next hx =>
        simp at h
      next e s1 hx =>
        simp only [Option.some_inj] at h
        cases h
        have hrel := (exec_step_rel kec code s).2 e s1 hx
        have hle : s1.gas ≤ G := le_trans hrel.1 hg
        constructor
        · simp [finish]
        · simp [finish]
          omega
      next a s2 hx =>
        have hrel := (exec_step_rel kec code s).1 a s2 hx
        have hle : s2.gas ≤ G := le_trans hrel.1 hg
        split at h <;> split at h <;>
          first
          | exact ih s2 _ _ r m hle h
          | (simp only [Option.some_inj] at h
             cases h
             constructor
             · simp [finish]
             · simp [finish]
               omega)
    · simp only [Option.some_inj] at h
      cases h
      constructor
      · simp [finish]
      · simp [finish]
        omega

theorem exec_loop_step (kec : List Nat → Nat) (vb : Bool) (code : List Nat)
    (G : Nat) (s : EvmState) (sc steps fuel : Nat) (s2 : EvmState) (sc2 : Nat)
    (hcond : s.pc < code.length ∧ s.halted = false ∧ s.reverted = false ∧ s.error = none)
    (hx : exec_step kec code s = .ok () s2)
    (hsc2 : (if vb then sc + 1 else sc) = sc2)
    (hsc : ¬ 10000 < sc2) :
    exec_loop kec vb code G s sc steps (fuel + 1) =
      exec_loop kec vb code G s2 sc2 (steps + 1) fuel := by
  simp only [exec_loop, hx, hsc2]
  rw [if_pos hcond, if_neg (hsc2 ▸ hsc)]

theorem from_byte_91 : OpCode.from_byte 91 = .JUMPDEST := rfl

theorem from_byte_96 : OpCode.from_byte 96 = .PUSH1 := rfl

theorem from_byte_86 : OpCode.from_byte 86 = .JUMP := rfl

theorem exec_core_JUMPDEST (kec : List Nat → Nat) (code : List Nat) :
    exec_core kec .JUMPDEST code = pureM () := rfl

theorem isJumpOp_JUMPDEST : OpCode.isJumpOp .JUMPDEST = false := rfl

theorem isJumpOp_PUSH1 : OpCode.isJumpOp .PUSH1 = false := rfl

theorem push_size_PUSH1 : OpCode.push_size .PUSH1 = some 1 := rfl

theorem gas_cost_PUSH1 : OpCode.gas_cost .PUSH1 = 3 := rfl

theorem isJumpOp_JUMP : OpCode.isJumpOp .JUMP = true := rfl

theorem exec_step_A (kec : List Nat → Nat) (g : Nat) (hg : 1 ≤ g) :
    exec_step kec loop_code (stA g) = .ok () (stB (g - 1)) := by
  have hgz : g ≠ 0 := by omega
  simp only [exec_step, loop_code, stA, stB, EvmState.new, List.getD]
  norm_num [from_byte_91]
  rw [execute_opcode_plain kec .JUMPDEST _ 1 rfl rfl]
  simp [bindM, consume_gas, pureM, EvmState.new, isJumpOp_JUMPDEST, exec_core_JUMPDEST, hgz]

theorem exec_step_B (kec : List Nat → Nat) (g : Nat) (hg : 3 ≤ g) :
    exec_step kec loop_code (stB g) = .ok () (stC (g - 3)) := by
  have hng : ¬ g < 3 := by omega
  simp only [exec_step, loop_code, stB, stC, EvmState.new, List.getD]
  norm_num [from_byte_96]
  rw [execute_opcode_eq, push_size_PUSH1, gas_cost_PUSH1]
  simp [push_case, bindM, consume_gas, push_stack, modifyOk, EvmState.new, hng,
    isJumpOp_PUSH1, beNat, loop_code]

theorem exec_step_C (kec : List Nat → Nat) (g : Nat) (hg : 8 ≤ g) :
    exec_step kec loop_code (stC g) = .ok () (stA (g - 8)) := by
  have hng : ¬ g < 8 := by omega
  simp only [exec_step, loop_code, stA, stC, EvmState.new, List.getD]
  norm_num [from_byte_86]
  rw [execute_opcode_plain kec .JUMP _ 8 rfl rfl]
  simp [exec_core_JUMP, bindM, consume_gas, pop_stack, as_usize, modifyOk, errM,
    EvmState.new, hng, isJumpOp_JUMP, loop_code]

theorem loop_cond_holds (g : Nat) (s : EvmState)
    (h : s = stA g ∨ s = stB g ∨ s = stC g) :
    s.pc < loop_code.length ∧ s.halted = false ∧ s.reverted = false ∧ s.error = none := by
  rcases h with h | h | h <;> subst h <;> simp [stA, stB, stC, EvmState.new, loop_code]

theorem loop_cycle (kec : List Nat → Nat) (G : Nat) :
    ∀ k g steps fuel, 12 * k ≤ g →
      exec_loop kec false loop_code G (stA g) 0 steps (3 * k + fuel) =
        exec_loop kec false loop_code G (stA (g - 12 * k)) 0 (steps + 3 * k) fuel := by
  intro k
  induction k with
  | zero =>
    intro g steps fuel hg
    norm_num
  | succ k ih =>
    intro g steps fuel hg
    have h12 : 12 ≤ g := by omega
    have e1 : 3 * (k + 1) + fuel = (3 * k + fuel) + 1 + 1 + 1 := by ring
    rw [e1]
    rw [exec_loop_step kec false loop_code G (stA g) 0 steps _ (stB (g - 1)) 0
      (loop_cond_holds g _ (Or.inl rfl)) (exec_step_A kec g (by omega)) (by norm_num) (by norm_num)]
    rw [exec_loop_step kec false loop_code G (stB (g - 1)) 0 (steps + 1) _ (stC (g - 1 - 3)) 0
      (loop_cond_holds (g - 1) _ (Or.inr (Or.inl rfl))) (exec_step_B kec (g - 1) (by omega)) (by norm_num) (by norm_num)]
    rw [exec_loop_step kec false loop_code G (stC (g - 1 - 3)) 0 (steps + 1 + 1) _ (stA (g - 1 - 3 - 8)) 0
      (loop_cond_holds (g - 1 - 3) _ (Or.inr (Or.inr rfl))) (exec_step_C kec (g - 1 - 3) (by omega)) (by norm_num) (by norm_num)]
    have e2 : g - 1 - 3 - 8 = g - 12 := by omega
    have e3 : g - 12 - 12 * k = g - 12 * (k + 1) := by omega
    rw [e2, ih (g - 12) (steps + 1 + 1 + 1) fuel (by omega), e3]
    ring_nf

theorem exec_loop_logs (kec : List Nat → Nat) (vb : Bool) (code : List Nat)
    (G : Nat) :
    ∀ fuel (s : EvmState) (sc steps : Nat) (r : ExecutionResult) (m : Nat),
      exec_loop kec vb code G s sc steps fuel = some (.result r m) →
      r.logs = s.logs := by
  intro fuel
  induction fuel with
  | zero =>
    intro s sc steps r m h
    simp [exec_loop] at h
  | succ fuel ih =>
    intro s sc steps r m h
    simp only [exec_loop] at h
    split at h
    · split at h
      next hx =>
        simp at h
      next e s1 hx =>
        simp only [Option.some_inj] at h
        cases h
        have hrel := (exec_step_rel kec code s).2 e s1 hx
        simpa [finish] using hrel.2.2
      next a s2 hx =>
        have hrel := (exec_step_rel kec code s).1 a s2 hx
        split at h <;> split at h <;>
          first
          | exact (ih s2 _ _ r m h).trans hrel.2.2
          | (simp only [Option.some_inj] at h
             cases h
             simpa [finish] using hrel.2.2)
    · simp only [Option.some_inj] at h
      cases h
      simp [finish]

theorem storage_find_filter_ne (st : List (Nat × Nat)) (k : Nat) :
    (st.filter (fun p => p.1 != k)).find? (fun p => p.1 == k) = none := by
  rw [List.find?_eq_none]
  intro x hx
  have hmem := List.of_mem_filter hx
  simp only [bne_iff_ne, ne_eq] at hmem
  simp [hmem]

theorem storage_store_zero_absent (st : List (Nat × Nat)) (k : Nat) :
    (storage_store st k 0).find? (fun p => p.1 == k) = none := by
  rw [storage_store, if_pos rfl]
  exact storage_find_filter_ne st k

theorem storage_load_absent (st : List (Nat × Nat)) (k : Nat)
    (h : st.find? (fun p => p.1 == k) = none) : storage_load st k = 0 := by
  simp [storage_load, h]

theorem storage_load_store_zero (st : List (Nat × Nat)) (k : Nat) :
    storage_load (storage_store st k 0) k = 0 :=
  storage_load_absent _ _ (storage_store_zero_absent st k)

/-- C3 (counterexample): the byte at offset 1 of this bytecode is `0x5b`
but lies inside the immediate region of the PUSH1 at offset 0; the claim
demands an "Invalid jump destination" error, yet the interpreter's JUMP
accepts it and sets PC to 1. -/
theorem jump_into_push_immediate_accepted :
    [0x60, 0x5b, 0x60, 0x01, 0x56].getD 0 0 = 0x60 ∧
    (OpCode.from_byte 0x60).push_size = some 1 ∧
    execute_opcode kec0 .JUMP [0x60, 0x5b, 0x60, 0x01, 0x56]
      { EvmState.new 100 0 with stack := [1], pc := 4 } =
      .ok () { EvmState.new 100 0 with stack := [], pc := 1, gas := 92 } := by
  decide

/-- Witness for C3: jumping to offset 0 of the one-byte program `JUMPDEST`
succeeds. -/
theorem jump_semantics_witness :
    execute_opcode kec0 .JUMP [0x5b] { EvmState.new 100 0 with stack := [0] } =
      .ok () { EvmState.new 100 0 with stack := [], gas := 92, pc := 0 } := by
  have h := (jump_semantics kec0 [0x5b] 0 [] { EvmState.new 100 0 with stack := [0] }
    rfl (by norm_num [EvmState.new]) (by norm_num)).1 (by decide)
  exact h

/-- C1 (code bug): with `verbose = false` the source increments its step
counter only inside the `if verbose` block, so the 10,000-step safety
ceiling never fires: the loop `JUMPDEST; PUSH1 0; JUMP` with gas 40008
runs for 10,003 interpreter steps and ends with `OutOfGas`, not
`Error("execution limit exceeded")`. -/
theorem execute_nonverbose_exceeds_step_limit :
    execute kec0 loop_code 40008 0 false 10003 =
      some (.result ⟨.OutOfGas, 40008, 0, [], []⟩ 10003) ∧ 10000 < 10003 := by
  constructor
  · have hcycle := loop_cycle kec0 40008 3334 40008 0 1 (by norm_num)
    norm_num at hcycle
    rw [show execute kec0 loop_code 40008 0 false 10003 =
      exec_loop kec0 false loop_code 40008 (stA 40008) 0 0 10003 from rfl, hcycle]
    decide
  · norm_num

/-- C2 (code bug): a popped memory offset that exceeds the host word size
is not reported through the frame's error field — `U256::as_usize` panics
and unwinds the host stack: `PUSH32 0xff…ff; MLOAD` crashes instead of
producing an `ExecutionResult`. -/
theorem execute_mload_huge_offset_panics :
    execute kec0 (0x7f :: (List.replicate 32 0xff ++ [0x51])) 1000 0 false 10 =
      some .crashed := by
  decide

/-- C4 (code bug): compiling `return 7;` leaves the stack `[value, 32, 0]`
at the MSTORE, which pops offset then value — so it stores the size
constant 32, and the executed program's `return_data` decodes big-endian
to 32, not to the returned constant 7. -/
theorem compile_return_yields_size_not_value :
    compile_return_program 7 =
      [0x60, 7, 0x60, 32, 0x60, 0, 0x52, 0x60, 32, 0x60, 0, 0xf3, 0x00] ∧
    execute kec0 (compile_return_program 7) 100 0 false 10 =
      some (.result ⟨.Success, 18, 82, List.replicate 31 0 ++ [32], []⟩ 7) ∧
    beNat (List.replicate 31 0 ++ [32]) = 32 ∧ (32 : Nat) ≠ 7 := by
  refine ⟨by decide, by decide, by decide, by decide⟩

/-- C5 (code bug): an executed LOG0 appends nothing to the frame's logs
list — it only prints — and in fact no opcode ever appends to it, so
every execution surfaces an empty `logs` list, contradicting the claim
that each LOG*n* appends a structural record. -/
theorem log0_executes_without_recording :
    (execute kec0 [0x60, 0x00, 0x60, 0x00, 0xa0] 100 0 false 10 =
      some (.result ⟨.Success, 7, 93, [], []⟩ 3)) ∧
    (∀ (kec : List Nat → Nat) (code : List Nat) (G v : Nat) (vb : Bool)
        (fuel : Nat) (r : ExecutionResult) (m : Nat),
      execute kec code G v vb fuel = some (.result r m) → r.logs = []) := by
  constructor
  · decide
  · intro kec code G v vb fuel r m h
    have hlog := exec_loop_logs kec vb code G fuel (EvmState.new G v) 0 0 r m h
    simpa [EvmState.new] using hlog

/-- Witness for C5: the logs list of the LOG0 run's result is empty. -/
theorem log0_executes_without_recording_witness :
    (ExecutionResult.mk .Success 7 93 [] []).logs = [] :=
  log0_executes_without_recording.2 kec0 [0x60, 0x00, 0x60, 0x00, 0xa0] 100 0 false 10
    ⟨.Success, 7, 93, [], []⟩ 3 log0_executes_without_recording.1

/-- C6 (code bug): for `2^32`, whose minimal big-endian encoding needs
five bytes, `emit_push_u256` emits the PUSH32 opcode followed by only
those five bytes; decoding and executing that instruction fails with
"Push instruction exceeds bytecode length" instead of leaving `2^32` on
the stack. -/
theorem emit_push_u256_five_byte_value_rejected :
    emit_push_u256 [] (2 ^ 32) = [0x7f, 0x01, 0x00, 0x00, 0x00, 0x00] ∧
    execute kec0 (emit_push_u256 [] (2 ^ 32)) 100 0 false 10 =
      some (.result ⟨.Error "Push instruction exceeds bytecode length", 3, 97, [], []⟩ 1) := by
  refine ⟨by decide, by decide⟩

/-- C7: every result returned by `execute` satisfies `gas_used ≤ G` and
`gas_used + gas_remaining = G`; moreover a gas charge that exceeds the
remaining balance fails with "Out of gas" leaving the state — and so the
gas counter — untouched. -/
theorem execute_gas_accounting (kec : List Nat → Nat) (code : List Nat)
    (G v : Nat) (vb : Bool) (fuel : Nat) (r : ExecutionResult) (m : Nat)
    (h : execute kec code G v vb fuel = some (.result r m)) :
    (r.gas_used ≤ G ∧ r.gas_used + r.gas_remaining = G) ∧
    (∀ (s : EvmState) (amt : Nat), s.gas < amt →
      consume_gas amt s = .err "Out of gas" s) := by
  constructor
  · exact exec_loop_gas kec vb code G fuel (EvmState.new G v) 0 0 r m (le_refl G) h
  · intro s amt hlt
    simp [consume_gas, hlt]

/-- Witness for C7: a one-STOP program under gas limit 10. -/
theorem execute_gas_accounting_witness :
    execute kec0 [0x00] 10 0 false 2 = some (.result ⟨.Success, 0, 10, [], []⟩ 1) ∧
    (ExecutionResult.mk .Success 0 10 [] []).gas_used ≤ 10 ∧
    (ExecutionResult.mk .Success 0 10 [] []).gas_used +
      (ExecutionResult.mk .Success 0 10 [] []).gas_remaining = 10 := by
  have h := execute_gas_accounting kec0 [0x00] 10 0 false 2 ⟨.Success, 0, 10, [], []⟩ 1
    (by decide)
  exact ⟨by decide, h.1.1, h.1.2⟩

/-- Witness for C8: PUSH1 7 at offset 0 of a two-byte program leaves PC
at 2 and 7 on the stack. -/
theorem push_step_witness :
    exec_step kec0 [0x60, 0x07] (EvmState.new 10 0) =
      .ok ()
        { EvmState.new 10 0 with
            stack := beNat (([0x60, 0x07].drop 1).take 1) :: [],
            gas := 7,
            pc := 2 } := by
  have h := push_step kec0 [0x60, 0x07] 0 1 (EvmState.new 10 0)
    (by norm_num) (by norm_num) (by decide) (by decide) rfl
    (by norm_num [EvmState.new]) (by decide) rfl
  exact h

/-- C9: executing SSTORE with key `k` and value 0 removes `k` from the
storage map, a subsequent load of `k` (or of any absent key) yields 0,
`storage_store` preserves the no-zero-value invariant for every value,
and no successful opcode execution can put a zero value into storage. -/
theorem sstore_zero_erases_key (kec : List Nat → Nat) (code : List Nat)
    (k : Nat) (rest : List Nat) (s : EvmState)
    (hs : s.stack = k :: 0 :: rest) (hg : 5000 ≤ s.gas) :
    execute_opcode kec .SSTORE code s =
      .ok ()
        { s with
            stack := rest,
            gas := s.gas - 5000,
            storage := storage_store s.storage k 0 } ∧
    (storage_store s.storage k 0).find? (fun p => p.1 == k) = none ∧
    storage_load (storage_store s.storage k 0) k = 0 ∧
    (∀ (st : List (Nat × Nat)) (k2 : Nat),
      st.find? (fun p => p.1 == k2) = none → storage_load st k2 = 0) ∧
    (∀ (st : List (Nat × Nat)) (k2 v : Nat),
      no_zero st → no_zero (storage_store st k2 v)) ∧
    (∀ (op : OpCode) (s1 : EvmState) (a : Unit) (s2 : EvmState),
      execute_opcode kec op code s1 = .ok a s2 →
      no_zero s1.storage → no_zero s2.storage) := by
  refine ⟨sstore_semantics kec code k 0 rest s hs hg, storage_store_zero_absent _ _,
    storage_load_store_zero _ _, fun st k2 h => storage_load_absent st k2 h,
    fun st k2 v h => no_zero_storage_store h k2 v, fun op s1 a s2 h hz => ?_⟩
  exact (((sound_execute_opcode kec op code) s1).1 a s2 h).2.1 hz

/-- Witness for C9: SSTORE(5, 0) on a frame whose storage maps 5 to 7. -/
theorem sstore_zero_erases_key_witness :
    execute_opcode kec0 .SSTORE []
      { EvmState.new 10000 0 with stack := [5, 0], storage := [(5, 7)] } =
      .ok () { EvmState.new 10000 0 with stack := [], gas := 5000, storage := [] } ∧
    ([] : List (Nat × Nat)).find? (fun p => p.1 == 5) = none ∧
    storage_load [] 5 = 0 := by
  have h := sstore_zero_erases_key kec0 [] 5 []
    { EvmState.new 10000 0 with stack := [5, 0], storage := [(5, 7)] }
    rfl (by norm_num [EvmState.new])
  exact ⟨h.1, h.2.1, h.2.2.1⟩

/-- C10 (counterexample): with 7 on top of the stack and 3 below it, MOD
pushes 3 % 7 = 3, treating the top word as the divisor, whereas the
claim's EVM encoding (top word = dividend) predicts 7 mod 3 = 1. -/
theorem mod_top_is_divisor_counterexample :
    execute_opcode kec0 .MOD [] { EvmState.new 100 0 with stack := [7, 3] } =
      .ok () { EvmState.new 100 0 with stack := [3], gas := 95 } ∧
    (3 : Nat) ≠ 7 % 3 := by
  decide

/-- C10 (amended): DIV pops the top word `a` (dividend) then `b`
(divisor) and pushes `a / b`; MOD pops the top word `b` (divisor) then
`a` (dividend) and pushes `a % b`; in both cases a zero divisor yields 0
rather than an error. -/
theorem div_mod_semantics (kec : List Nat → Nat) (code : List Nat)
    (a b : Nat) (rest : List Nat) (s t : EvmState)
    (hs : s.stack = a :: b :: rest) (hg : 5 ≤ s.gas)
    (ht : t.stack = b :: a :: rest) (hgt : 5 ≤ t.gas)
    (hrest : rest.length < 1024) :
    execute_opcode kec .DIV code s =
      .ok ()
        { s with
            stack := (if b = 0 then 0 else a / b) :: rest,
            gas := s.gas - 5 } ∧
    execute_opcode kec .MOD code t =
      .ok ()
        { t with
            stack := (if b = 0 then 0 else a % b) :: rest,
            gas := t.gas - 5 } :=
  ⟨div_semantics kec code a b rest s hs hg hrest,
   mod_semantics kec code a b rest t ht hgt hrest⟩

/-- Witness for C10: DIV on stack [7, 3] pushes 2; MOD on stack [3, 7]
pushes 1. -/
theorem div_mod_semantics_witness :
    execute_opcode kec0 .DIV [] { EvmState.new 100 0 with stack := [7, 3] } =
      .ok () { EvmState.new 100 0 with stack := [2], gas := 95 } ∧
    execute_opcode kec0 .MOD [] { EvmState.new 100 0 with stack := [3, 7] } =
      .ok () { EvmState.new 100 0 with stack := [1], gas := 95 } := by
  have h := div_mod_semantics kec0 [] 7 3 []
    { EvmState.new 100 0 with stack := [7, 3] }
    { EvmState.new 100 0 with stack := [3, 7] }
    rfl (by norm_num [EvmState.new]) rfl (by norm_num [EvmState.new]) (by decide)
  exact ⟨h.1, h.2⟩
